import Mathlib

/-!
Verification development for the y-websocket repository: the client
synchronization provider (src/src/y-websocket.js) and the server room
engine (src/bin/utils.js), shallowly embedded.  External collaborators
(the yjs CRDT engine, the y-protocols sync and awareness codecs, the
websocket transport and the broadcastchannel bus) are modelled at the
interface level the specification documents: inbound frames carry their
decoded content, and the effect of the external sync responder on a
document is an abstract version bump.
-/

namespace YW

/-- Message type tags (y-websocket.js lines 21-24). -/
def messageSync : Nat := 0

/-- Awareness message tag. -/
def messageAwareness : Nat := 1

/-- Auth message tag. -/
def messageAuth : Nat := 2

/-- Query awareness message tag. -/
def messageQueryAwareness : Nat := 3

/-- Sync sub message tag of the external y-protocols library: step 1. -/
def messageYjsSyncStep1 : Nat := 0

/-- Sync sub message tag: step 2 (full state). -/
def messageYjsSyncStep2 : Nat := 1

/-- Sync sub message tag: incremental update. -/
def messageYjsUpdate : Nat := 2

/-- Lookup in an association list, first match wins (models js Map.get). -/
def lookupL {α β : Type} [DecidableEq α] : List (α × β) → α → Option β
  | [], _ => none
  | (k, v) :: rest, a => if k = a then some v else lookupL rest a

/-- Insert or update in an association list (models js Map.set). -/
def setL {α β : Type} [DecidableEq α] : List (α × β) → α → β → List (α × β)
  | [], a, b => [(a, b)]
  | (k, v) :: rest, a, b => if k = a then (a, b) :: rest else (k, v) :: setL rest a b

/-- Remove a key from an association list (models js Map.delete). -/
def removeL {α β : Type} [DecidableEq α] (l : List (α × β)) (a : α) : List (α × β) :=
  l.filter (fun e => e.1 ≠ a)

/-- A yjs document, reduced to the fields the provider reads: its client id
and an abstract content version that external update application bumps. -/
structure Doc where
  clientID : Nat
  version : Nat
deriving DecidableEq, Repr

/-- Transaction origin of a document or awareness mutation: the provider
itself (js identity comparison with this) or some other actor. -/
inductive Origin where
  | self
  | remote (id : Nat)
deriving DecidableEq, Repr

/-- An awareness registry: participant client id mapped to a state blob id.
Absent key means no state (null local state). -/
abbrev Registry := List (Nat × Nat)

/-- Decoded payload of a Sync message, as the external readSyncMessage
classifies it; the delta is the abstract effect on the document version. -/
inductive SyncMsg where
  | step1
  | step2 (delta : Nat)
  | update (delta : Nat)
deriving DecidableEq, Repr

/-- An inbound frame after decoding: leading varuint type, then the doc
guid string, then the type specific payload. -/
structure InFrame where
  messageType : Nat
  docGuid : String
  sync : SyncMsg
  awarenessEntries : List (Nat × Option Nat)
  authDeny : Bool
deriving DecidableEq, Repr

/-- The lib0 encoder, reduced to what the dispatch logic inspects: whether
the envelope (type tag, doc guid) was written and whether any handler
specific body bytes follow it. -/
structure Encoder where
  msgType : Option Nat
  guid : Option String
  body : Bool
deriving DecidableEq, Repr

/-- A fresh empty encoder. -/
def Encoder.empty : Encoder := ⟨none, none, false⟩

/-- Byte length of the encoder content (encoding.length): one byte for the
type tag, length prefix plus characters for the guid, at least one byte of
body when present. -/
def encLength (e : Encoder) : Nat :=
  (match e.msgType with | some _ => 1 | none => 0) +
  (match e.guid with | some g => 1 + g.length | none => 0) +
  (if e.body then 1 else 0)

/-- The needSend check (y-websocket.js lines 136-147): skip the type tag and
the doc guid, then test whether content remains. -/
def needSend (e : Encoder) : Bool := e.body

/-- An outbound frame, by its decoded shape. -/
inductive OutFrame where
  | syncStep1 (guid : String)
  | syncStep2 (guid : String)
  | syncUpdate (guid : String)
  | awareness (guid : String) (ids : List Nat)
  | awarenessLeave (guid : String) (ids : List Nat)
  | queryAwareness (guid : String)
  | resp (e : Encoder)
deriving DecidableEq, Repr

/-- Observable effects of the client provider. -/
inductive Out where
  | wsSend (f : OutFrame)
  | bcPublish (f : OutFrame)
  | wsCloseCall
  | emitSynced (b : Bool)
  | emitSync (b : Bool)
  | emitSubdocSynced (guid : String) (b : Bool)
  | emitStatus (s : String)
  | emitConnectionClose
  | logError (s : String)
  | permissionDenied
deriving DecidableEq, Repr

/-- The client provider state (the WebsocketProvider fields the core logic
reads and writes).  The field pendingReconnects is not a js object field:
it models the environment timer queue holding the delays of every
setTimeout(setupWS, ...) scheduled by the close handler and not yet fired. -/
structure Provider where
  roomname : String
  maxBackoffTime : Nat
  disableBc : Bool
  doc : Doc
  shouldConnect : Bool
  wsconnected : Bool
  wsconnecting : Bool
  bcconnected : Bool
  syncedFlag : Bool
  wsUnsuccessfulReconnects : Nat
  ws : Option Nat
  wsLastMessageReceived : Nat
  docs : List (String × Doc)
  docsAwareness : List (String × Registry)
  syncedStatus : List (String × Bool)
  resyncIntervalOn : Bool
  checkIntervalOn : Bool
  pendingReconnects : List Nat
deriving DecidableEq, Repr

/-- The synced property setter (y-websocket.js lines 545-551): on an actual
change it stores the new value and emits one synced and one sync event. -/
def setSyncedProp (p : Provider) (state : Bool) : Provider × List Out :=
  if p.syncedFlag ≠ state then
    ({p with syncedFlag := state}, [.emitSynced state, .emitSync state])
  else (p, [])

/-- updateSyncedStatus for sub documents (y-websocket.js lines 553-564). -/
def updateSyncedStatus (p : Provider) (id : String) (state : Bool) : Provider × List Out :=
  let oldState := lookupL p.syncedStatus id
  if oldState ≠ some state then
    ({p with syncedStatus := setL p.syncedStatus id state}, [.emitSubdocSynced id state])
  else (p, [])

/-- broadcastMessage (y-websocket.js lines 256-264): write to the socket if
connected and the socket is OPEN, and publish to the broadcast channel if
subscribed; the two paths are independent. -/
def broadcastMessage (p : Provider) (buf : OutFrame) : List Out :=
  (match p.ws with
   | some rs => if p.wsconnected ∧ rs = 1 then [Out.wsSend buf] else []
   | none => []) ++
  (if p.bcconnected then [Out.bcPublish buf] else [])

/-- The document update listener for the main document (y-websocket.js
lines 399-407): re-broadcast only updates whose origin is not the provider. -/
def updateHandler (p : Provider) (origin : Origin) : List Out :=
  if origin ≠ Origin.self then broadcastMessage p (.syncUpdate p.roomname) else []

/-- The document update listener for a sub document (y-websocket.js
lines 469-478). -/
def subdocUpdateHandler (p : Provider) (id : String) (origin : Origin) : List Out :=
  if origin = Origin.self then [] else broadcastMessage p (.syncUpdate id)

/-- Synchronous cascade fired when applying a remote update mutates a
document: yjs delivers the update event within the same turn, reaching the
registered listener for that document. -/
def docUpdateCascade (p : Provider) (guid : String) (origin : Origin) : List Out :=
  if guid = p.roomname then updateHandler p origin else subdocUpdateHandler p guid origin

/-- The awareness update listener (y-websocket.js lines 413-418 and 425-435):
encode the changed client states and broadcast; the origin is ignored. -/
def awarenessUpdateCascade (p : Provider) (guid : String) (changed : List Nat) : List Out :=
  broadcastMessage p (.awareness guid changed)

/-- The external readSyncMessage of y-protocols at interface level: step 1
writes a reply body and returns tag 0; step 2 and update apply content to
the document and return tags 1 and 2. -/
def readSyncMessage (doc : Doc) (e : Encoder) (m : SyncMsg) : Nat × Doc × Encoder :=
  match m with
  | .step1 => (messageYjsSyncStep1, doc, {e with body := true})
  | .step2 d => (messageYjsSyncStep2, {doc with version := doc.version + d}, e)
  | .update d => (messageYjsUpdate, {doc with version := doc.version + d}, e)

/-- The client Sync message handler (y-websocket.js lines 38-68). -/
def handleSyncMsg (p : Provider) (enc : Encoder) (f : InFrame) (emitSyncedFlag : Bool) :
    Provider × Encoder × List Out :=
  match lookupL p.docs f.docGuid with
  | none => (p, enc, [.logError "doc not found with id: "])
  | some doc =>
    let enc1 : Encoder := {enc with msgType := some messageSync, guid := some f.docGuid}
    let r := readSyncMessage doc enc1 f.sync
    let p1 := {p with docs := setL p.docs f.docGuid r.2.1}
    let cascade :=
      if r.2.1.version ≠ doc.version then docUpdateCascade p1 f.docGuid Origin.self else []
    let s1 :=
      if emitSyncedFlag ∧ f.docGuid = p1.roomname ∧ r.1 = messageYjsSyncStep2 ∧
          ¬p1.syncedFlag then
        setSyncedProp p1 true
      else (p1, [])
    let s2 :=
      if emitSyncedFlag ∧ f.docGuid ≠ s1.1.roomname ∧ r.1 = messageYjsSyncStep2 ∧
          ¬(lookupL s1.1.syncedStatus f.docGuid = some true) then
        updateSyncedStatus s1.1 f.docGuid true
      else (s1.1, [])
    (s2.1, r.2.2, cascade ++ s1.2 ++ s2.2)

/-- Application of a decoded awareness update to a registry: an entry with a
state inserts or updates, an entry with null state removes. -/
def applyAwarenessEntries (reg : Registry) (entries : List (Nat × Option Nat)) : Registry :=
  entries.foldl (fun r e =>
    match e.2 with
    | some st => setL r e.1 st
    | none => removeL r e.1) reg

/-- The client Awareness message handler (y-websocket.js lines 83-97). -/
def handleAwarenessMsg (p : Provider) (enc : Encoder) (f : InFrame) :
    Provider × Encoder × List Out :=
  match lookupL p.docs f.docGuid with
  | none => (p, enc, [.logError "doc not found with id: "])
  | some _ =>
    let reg := (lookupL p.docsAwareness f.docGuid).getD []
    let reg2 := applyAwarenessEntries reg f.awarenessEntries
    let p1 := {p with docsAwareness := setL p.docsAwareness f.docGuid reg2}
    let cascade :=
      if f.awarenessEntries ≠ [] then
        awarenessUpdateCascade p1 f.docGuid (f.awarenessEntries.map Prod.fst)
      else []
    (p1, enc, cascade)

/-- The client Query-Awareness message handler (y-websocket.js lines 70-81):
reply with the full awareness snapshot, framed as an Awareness message. -/
def handleQueryAwarenessMsg (p : Provider) (enc : Encoder) (f : InFrame) :
    Provider × Encoder × List Out :=
  match lookupL p.docs f.docGuid with
  | none => (p, enc, [.logError "doc not found with id: "])
  | some _ =>
    (p, {enc with msgType := some messageAwareness, guid := some f.docGuid, body := true}, [])

/-- The client Auth message handler (y-websocket.js lines 99-101). -/
def handleAuthMsg (p : Provider) (enc : Encoder) (f : InFrame) :
    Provider × Encoder × List Out :=
  (p, enc, if f.authDeny then [Out.permissionDenied] else [])

/-- The client message dispatcher readMessage (y-websocket.js lines 119-130):
dispatch on the leading type tag; an unknown tag logs an error and leaves
the response encoder empty. -/
def readMessage (p : Provider) (f : InFrame) (emitSyncedFlag : Bool) :
    Provider × Encoder × List Out :=
  let enc := Encoder.empty
  if f.messageType = messageSync then handleSyncMsg p enc f emitSyncedFlag
  else if f.messageType = messageAwareness then handleAwarenessMsg p enc f
  else if f.messageType = messageAuth then handleAuthMsg p enc f
  else if f.messageType = messageQueryAwareness then handleQueryAwarenessMsg p enc f
  else (p, enc, [.logError "Unable to compute message"])

/-- The websocket onmessage handler (y-websocket.js lines 162-168): record
the receive time, dispatch with emitSynced enabled, send the response back
over the socket when it is non empty and has body content. -/
def wsOnMessage (p : Provider) (now : Nat) (f : InFrame) : Provider × List Out :=
  let p0 := {p with wsLastMessageReceived := now}
  let r := readMessage p0 f true
  if encLength r.2.1 > 1 ∧ needSend r.2.1 then
    (r.1, r.2.2 ++ [Out.wsSend (.resp r.2.1)])
  else (r.1, r.2.2)

/-- The broadcast channel subscriber (y-websocket.js lines 386-393): ignore
own echoes, dispatch with emitSynced disabled, publish any non empty
response back to the broadcast channel only. -/
def bcSubscriber (p : Provider) (f : InFrame) (origin : Origin) : Provider × List Out :=
  if origin ≠ Origin.self then
    let r := readMessage p f false
    if encLength r.2.1 > 1 then
      (r.1, r.2.2 ++ [Out.bcPublish (.resp r.2.1)])
    else (r.1, r.2.2)
  else (p, [])

/-- One step of the disconnect presence sweep: for one tracked registry,
drop all client ids except the client id of the owning document; the
awareness update event then fires for the removed ids. -/
def rnlaStep (acc : Provider × List Out) (docId : String) : Provider × List Out :=
  let q := acc.1
  match lookupL q.docs docId with
  | none => acc
  | some doc =>
    let reg := (lookupL q.docsAwareness docId).getD []
    let removedIds := (reg.map Prod.fst).filter (fun c => c ≠ doc.clientID)
    let reg2 := reg.filter (fun e => e.1 = doc.clientID)
    let q2 := {q with docsAwareness := setL q.docsAwareness docId reg2}
    let outs := if removedIds ≠ [] then awarenessUpdateCascade q2 docId removedIds else []
    (q2, acc.2 ++ outs)

/-- Removal of every non local awareness participant on disconnect
(y-websocket.js lines 183-191), sweeping over every tracked registry. -/
def removeNonLocalAwareness (p : Provider) : Provider × List Out :=
  (p.docsAwareness.map Prod.fst).foldl rnlaStep (p, [])

/-- The backoff delay passed to setTimeout by the close handler
(y-websocket.js line 204). -/
def reconnectDelay (n cap : Nat) : Nat := min (2 ^ n * 100) cap

/-- The websocket onclose handler (y-websocket.js lines 173-207): emit
connection-close, null the socket, on a previously connected socket reset
the synced flag and presence and emit disconnected, otherwise count the
failure; in every case schedule a reconnect with exponential backoff. -/
def wsOnClose (p : Provider) : Provider × List Out :=
  let p1 := {p with ws := none, wsconnecting := false}
  let r :=
    if p1.wsconnected then
      let p2 := {p1 with wsconnected := false}
      let s := setSyncedProp p2 false
      let t := removeNonLocalAwareness s.1
      (t.1, s.2 ++ t.2 ++ [Out.emitStatus "disconnected"])
    else
      ({p1 with wsUnsuccessfulReconnects := p1.wsUnsuccessfulReconnects + 1}, [])
  let delay := reconnectDelay r.1.wsUnsuccessfulReconnects r.1.maxBackoffTime
  ({r.1 with pendingReconnects := r.1.pendingReconnects ++ [delay]},
   Out.emitConnectionClose :: r.2)

/-- The websocket onopen handler (y-websocket.js lines 208-242): reset the
failure counter, send a sync step 1 for every tracked document, send the
local awareness state where present, emit connected.  The socket ready
state becomes OPEN per websocket semantics. -/
def wsOnOpen (p : Provider) (now : Nat) : Provider × List Out :=
  let p1 := {p with wsLastMessageReceived := now, wsconnecting := false, wsconnected := true,
                    wsUnsuccessfulReconnects := 0, ws := some 1}
  let syncOuts := p1.docs.map (fun e => Out.wsSend (.syncStep1 e.1))
  let awOuts := p1.docsAwareness.foldl (fun acc e =>
      match lookupL p1.docs e.1 with
      | none => acc
      | some doc =>
        if (lookupL e.2 doc.clientID).isSome then acc ++ [Out.wsSend (.awareness e.1 [doc.clientID])]
        else acc) []
  (p1, syncOuts ++ awOuts ++ [Out.emitStatus "connected"])

/-- setupWS (y-websocket.js lines 152-161 and 243-249): only when the user
intent flag is set and no socket exists, create a fresh socket in the
CONNECTING state, clear the synced flag through the setter, and emit a
connecting status. -/
def setupWS (p : Provider) : Provider × List Out :=
  if p.shouldConnect ∧ p.ws = none then
    let p1 := {p with ws := some 0, wsconnecting := true, wsconnected := false}
    let s := setSyncedProp p1 false
    (s.1, s.2 ++ [Out.emitStatus "connecting"])
  else (p, [])

/-- Firing of one pending reconnect timeout: the environment pops the timer
and runs setupWS, exactly as scheduled at y-websocket.js lines 202-206. -/
def fireReconnectTimer (p : Provider) : Provider × List Out :=
  match p.pendingReconnects with
  | [] => (p, [])
  | _ :: rest => setupWS {p with pendingReconnects := rest}

/-- connectBc (y-websocket.js lines 581-624): subscribe once, then publish a
sync step 1, a sync step 2, an awareness query and the local awareness
state to the broadcast channel. -/
def connectBc (p : Provider) : Provider × List Out :=
  if p.disableBc then (p, [])
  else
    let p1 := if ¬p.bcconnected then {p with bcconnected := true} else p
    (p1, [Out.bcPublish (.syncStep1 p1.roomname),
          Out.bcPublish (.syncStep2 p1.roomname),
          Out.bcPublish (.queryAwareness p1.roomname),
          Out.bcPublish (.awareness p1.roomname [p1.doc.clientID])])

/-- disconnectBc (y-websocket.js lines 626-637): broadcast the local
participant with an empty state map (departure), then unsubscribe. -/
def disconnectBc (p : Provider) : Provider × List Out :=
  let outs := broadcastMessage p (.awarenessLeave p.roomname [p.doc.clientID])
  if p.bcconnected then ({p with bcconnected := false}, outs) else (p, outs)

/-- A close call on the socket reference; a null reference would be a
javascript runtime error, which the Except models. -/
def closeSocketCall (ws : Option Nat) : Except String (List Out) :=
  match ws with
  | none => Except.error "TypeError: ws is null"
  | some _ => Except.ok [Out.wsCloseCall]

/-- disconnect (y-websocket.js lines 639-646): clear the user intent flag,
leave the broadcast channel, and close the socket only when one exists. -/
def disconnect (p : Provider) : Except String (Provider × List Out) :=
  let p1 := {p with shouldConnect := false}
  let r := disconnectBc p1
  match (if r.1.ws ≠ none then closeSocketCall r.1.ws else Except.ok []) with
  | Except.error e => Except.error e
  | Except.ok closeOuts => Except.ok (r.1, r.2 ++ closeOuts)

/-- connect (y-websocket.js lines 648-656). -/
def connect (p : Provider) : Provider × List Out :=
  let p1 := {p with shouldConnect := true}
  if ¬p1.wsconnected ∧ p1.ws = none then
    let s := setupWS p1
    let b := connectBc s.1
    (b.1, s.2 ++ b.2)
  else (p1, [])

/-- destroy (y-websocket.js lines 566-579): clear the resync and liveness
intervals, then disconnect; listener deregistration has no observable field
in this model. -/
def destroy (p : Provider) : Except String (Provider × List Out) :=
  let p1 := {p with resyncIntervalOn := false, checkIntervalOn := false}
  disconnect p1

/-- Outbound server frame shapes. -/
inductive SFrameOut where
  | syncResp
  | syncUpdate
  | awarenessUpd (ids : List Nat)
  | syncStep1
  | awarenessSnapshot (ids : List Nat)
deriving DecidableEq, Repr

/-- Observable effects of the server engine. -/
inductive SOut where
  | sendTo (conn : Nat) (f : SFrameOut)
  | closeSocket (conn : Nat)
  | bindState (name : String)
  | writeState (name : String)
  | destroyDoc (name : String)
  | deleteFromRegistry (name : String)
deriving DecidableEq, Repr

/-- A server room (WSSharedDoc, bin/utils.js lines 58-101): room name, the
abstract version of the authoritative document, the gc flag, the map from
connection to the set of controlled participant ids, and the shared
awareness registry. -/
structure Room where
  name : String
  docVersion : Nat
  gcFlag : Bool
  conns : List (Nat × List Nat)
  awareness : Registry
deriving DecidableEq, Repr

/-- Environment facts about the transport: the ready state of each server
side socket, the set of connections whose send reports an error, and
whether a persistence collaborator is configured. -/
structure Net where
  readyState : List (Nat × Nat)
  failSend : List Nat
  persistenceOn : Bool
deriving DecidableEq, Repr

mutual

/-- server send (bin/utils.js lines 156-165): a connection that is neither
connecting nor open is cleaned up first; the send is then attempted, and a
reported error or a raised exception triggers the same cleanup. -/
def sendF : Nat → Net → Room → Nat → SFrameOut → Room × List SOut
  | 0, _, room, _, _ => (room, [])
  | Nat.succ fuel, net, room, conn, m =>
    let rs := (lookupL net.readyState conn).getD 3
    let first := if rs ≠ 0 ∧ rs ≠ 1 then closeConnF fuel net room conn else (room, [])
    if (rs ≠ 0 ∧ rs ≠ 1) ∨ conn ∈ net.failSend then
      let second := closeConnF fuel net first.1 conn
      (second.1, first.2 ++ second.2)
    else (first.1, first.2 ++ [SOut.sendTo conn m])

/-- closeConn (bin/utils.js lines 131-149): forget the connection, remove
every awareness state it controlled, persist and tear the room down when it
was the last connection and persistence is configured, and always close the
socket. -/
def closeConnF : Nat → Net → Room → Nat → Room × List SOut
  | 0, _, room, _ => (room, [])
  | Nat.succ fuel, net, room, conn =>
    let r :=
      match lookupL room.conns conn with
      | some controlledIds =>
        let room1 := {room with conns := removeL room.conns conn}
        let r1 := removeAwarenessStatesF fuel net room1 controlledIds
        let persistOuts :=
          if r1.1.conns = [] ∧ net.persistenceOn then
            [SOut.writeState r1.1.name, SOut.destroyDoc r1.1.name,
             SOut.deleteFromRegistry r1.1.name]
          else []
        (r1.1, r1.2 ++ persistOuts)
      | none => (room, [])
    (r.1, r.2 ++ [SOut.closeSocket conn])

/-- removeAwarenessStates of the external awareness library at interface
level, origin null: drop the states of the given ids and, when any state
was actually removed, fire the change handler with the removed list. -/
def removeAwarenessStatesF : Nat → Net → Room → List Nat → Room × List SOut
  | 0, _, room, _ => (room, [])
  | Nat.succ fuel, net, room, ids =>
    let removed := ids.filter (fun id => (lookupL room.awareness id).isSome)
    let room1 := {room with awareness := room.awareness.filter (fun e => decide (e.1 ∉ ids))}
    if removed ≠ [] then changeHandlerF fuel net room1 [] [] removed none
    else (room1, [])

/-- awarenessChangeHandler (bin/utils.js lines 80-97): when the origin is a
connection, update its controlled id set; then broadcast one awareness
update carrying the changed client ids to every connection of the room. -/
def changeHandlerF :
    Nat → Net → Room → List Nat → List Nat → List Nat → Option Nat → Room × List SOut
  | 0, _, room, _, _, _, _ => (room, [])
  | Nat.succ fuel, net, room, added, updated, removed, connOrigin =>
    let changedClients := added ++ updated ++ removed
    let room1 :=
      match connOrigin with
      | some c =>
        match lookupL room.conns c with
        | some ids =>
          let ids1 := (ids ++ added.filter (fun a => decide (a ∉ ids))).filter
            (fun i => decide (i ∉ removed))
          {room with conns := setL room.conns c ids1}
        | none => room
      | none => room
    broadcastRoomF fuel net (SFrameOut.awarenessUpd changedClients)
      (room1.conns.map Prod.fst) (room1, [])

/-- The forEach send loop over the connection map of a room (the broadcast
parts of bin/utils.js lines 50-56 and 89-96): each target still present in
the map is sent the frame; a target deleted by a nested cleanup is
skipped, matching javascript Map.forEach semantics. -/
def broadcastRoomF : Nat → Net → SFrameOut → List Nat → Room × List SOut → Room × List SOut
  | 0, _, _, _, acc => acc
  | Nat.succ _, _, _, [], acc => acc
  | Nat.succ fuel, net, m, c :: rest, acc =>
    if (lookupL acc.1.conns c).isSome then
      let r := sendF fuel net acc.1 c m
      broadcastRoomF fuel net m rest (r.1, acc.2 ++ r.2)
    else broadcastRoomF fuel net m rest acc

end

/-- The server side of the external sync responder: step 1 writes a reply
body, step 2 and update apply content to the document version. -/
def serverReadSync (v : Nat) (m : SyncMsg) : Nat × Nat × Bool :=
  match m with
  | .step1 => (messageYjsSyncStep1, v, true)
  | .step2 d => (messageYjsSyncStep2, v + d, false)
  | .update d => (messageYjsUpdate, v + d, false)

/-- The server document update broadcast (bin/utils.js lines 50-56): frame
the update as Sync and send it to every connection of the room. -/
def serverUpdateBroadcast (fuel : Nat) (net : Net) (room : Room) : Room × List SOut :=
  broadcastRoomF fuel net SFrameOut.syncUpdate (room.conns.map Prod.fst) (room, [])

/-- An inbound server frame after decoding the leading varuint type tag. -/
structure SInFrame where
  messageType : Nat
  sync : SyncMsg
  awarenessEntries : List (Nat × Option Nat)
deriving DecidableEq, Repr

/-- The server message dispatcher messageListener (bin/utils.js lines
108-125): a switch on the type tag with a Sync case and an Awareness case
and no default, so any other tag falls through silently. -/
def messageListener (fuel : Nat) (net : Net) (room : Room) (conn : Nat) (f : SInFrame) :
    Room × List SOut :=
  if f.messageType = messageSync then
    let r := serverReadSync room.docVersion f.sync
    let room1 := {room with docVersion := r.2.1}
    let cascade :=
      if r.2.1 ≠ room.docVersion then serverUpdateBroadcast fuel net room1 else (room1, [])
    if r.2.2 then
      let s := sendF fuel net cascade.1 conn SFrameOut.syncResp
      (s.1, cascade.2 ++ s.2)
    else (cascade.1, cascade.2)
  else if f.messageType = messageAwareness then
    let st := room.awareness
    let added := (f.awarenessEntries.filter
      (fun e => decide (e.2.isSome = true ∧ lookupL st e.1 = none))).map Prod.fst
    let updated := (f.awarenessEntries.filter (fun e =>
      match e.2, lookupL st e.1 with
      | some v, some o => decide (v ≠ o)
      | _, _ => false)).map Prod.fst
    let removed := (f.awarenessEntries.filter
      (fun e => decide (e.2 = none ∧ (lookupL st e.1).isSome = true))).map Prod.fst
    let room1 := {room with awareness := applyAwarenessEntries st f.awarenessEntries}
    if added ++ updated ++ removed ≠ [] then
      changeHandlerF fuel net room1 added updated removed (some conn)
    else (room1, [])
  else (room, [])

/-- The global room registry (bin/utils.js line 39) together with an
allocator for fresh room object identities. -/
structure ServerState where
  docs : List (String × Nat)
  nextRoomId : Nat
  rooms : List (Nat × Room)
deriving DecidableEq, Repr

/-- A fresh room as the WSSharedDoc constructor builds it. -/
def newRoom (name : String) (gc : Bool) : Room :=
  { name := name, docVersion := 0, gcFlag := gc, conns := [], awareness := [] }

/-- The lookup-or-create of a room: map.setIfUndefined over the global
registry (bin/utils.js lines 177-185), binding persistence on creation. -/
def getYDoc (net : Net) (s : ServerState) (docName : String) (gc : Bool) :
    ServerState × Nat × List SOut :=
  match lookupL s.docs docName with
  | some rid => (s, rid, [])
  | none =>
    let rid := s.nextRoomId
    let outs := if net.persistenceOn then [SOut.bindState docName] else []
    ({ docs := s.docs ++ [(docName, rid)], nextRoomId := rid + 1,
       rooms := s.rooms ++ [(rid, newRoom docName gc)] }, rid, outs)

/-- Interpretation of registry deletion effects produced by closeConn
against the global registry. -/
def applyRegistryOuts (s : ServerState) (outs : List SOut) : ServerState :=
  outs.foldl (fun st o =>
    match o with
    | SOut.deleteFromRegistry n => {st with docs := removeL st.docs n}
    | _ => st) s

/-- setupWSConnection (bin/utils.js lines 174-224), the room binding part:
look up or create the room, register the connection with an empty
controlled id set, send it a sync step 1 and, when the room has presence,
the full awareness snapshot.  The ping keepalive interval has no claim
bearing state and is not tracked. -/
def setupWSConnection (fuel : Nat) (net : Net) (s : ServerState) (connId : Nat)
    (docName : String) (gc : Bool) : ServerState × Nat × List SOut :=
  let g := getYDoc net s docName gc
  let s1 := g.1
  let rid := g.2.1
  match lookupL s1.rooms rid with
  | none => (s1, rid, g.2.2)
  | some room =>
    let room1 := {room with conns := setL room.conns connId []}
    let r1 := sendF fuel net room1 connId SFrameOut.syncStep1
    let r2 :=
      if r1.1.awareness ≠ [] then
        sendF fuel net r1.1 connId (SFrameOut.awarenessSnapshot (r1.1.awareness.map Prod.fst))
      else (r1.1, [])
    let outs := g.2.2 ++ r1.2 ++ r2.2
    let s2 := {s1 with rooms := setL s1.rooms rid r2.1}
    (applyRegistryOuts s2 outs, rid, outs)

/-- A healthy connection: ready state connecting or open, and sends on it
succeed. -/
def connOkB (net : Net) (c : Nat) : Bool :=
  ((lookupL net.readyState c).getD 3 == 0 || (lookupL net.readyState c).getD 3 == 1) &&
    !(decide (c ∈ net.failSend))

/-- Sequential processing of connection requests, collecting for each
request the room object identity it was bound to. -/
def runSetups (fuel : Nat) (net : Net) (s : ServerState) :
    List (Nat × String) → ServerState × List (Nat × String × Nat)
  | [] => (s, [])
  | (c, n) :: rest =>
    let r := setupWSConnection fuel net s c n true
    let rr := runSetups fuel net r.1 rest
    (rr.1, (c, n, r.2.1) :: rr.2)

/-- Lookup distributes over append when the key is found on the left. -/
theorem lookupL_append_some {α β : Type} [DecidableEq α] {l : List (α × β)} (l2 : List (α × β))
    {a : α} {b : β} (h : lookupL l a = some b) : lookupL (l ++ l2) a = some b := by
  induction l with
  | nil => simp [lookupL] at h
  | cons e rest ih =>
    obtain ⟨k, v⟩ := e
    by_cases hk : k = a
    · simpa [lookupL, hk] using h
    · rw [List.cons_append]
      rw [lookupL, if_neg hk] at h ⊢
      exact ih h

/-- Lookup finds a freshly appended binding when the key was absent. -/
theorem lookupL_append_fresh {α β : Type} [DecidableEq α] {l : List (α × β)}
    {a : α} (b : β) (h : lookupL l a = none) : lookupL (l ++ [(a, b)]) a = some b := by
  induction l with
  | nil => simp [lookupL]
  | cons e rest ih =>
    obtain ⟨k, v⟩ := e
    by_cases hk : k = a
    · rw [lookupL, if_pos hk] at h
      exact absurd h (by simp)
    · rw [List.cons_append]
      rw [lookupL, if_neg hk] at h ⊢
      exact ih h

/-- A removed key is no longer found. -/
theorem lookupL_removeL {α β : Type} [DecidableEq α] (l : List (α × β)) (a : α) :
    lookupL (removeL l a) a = none := by
  induction l with
  | nil => simp [removeL, lookupL]
  | cons e rest ih =>
    obtain ⟨k, v⟩ := e
    rw [removeL] at ih ⊢
    rw [List.filter_cons]
    by_cases hk : k = a
    · simp only [hk]
      simpa using ih
    · have hd : (decide ((k, v).1 ≠ a)) = true := by simpa using hk
      rw [if_pos hd, lookupL, if_neg hk]
      exact ih

/-- A key member of the key list of an association list is found. -/
theorem lookupL_isSome_of_mem {α β : Type} [DecidableEq α] {l : List (α × β)} {a : α}
    (h : a ∈ l.map Prod.fst) : (lookupL l a).isSome := by
  induction l with
  | nil => simp at h
  | cons e rest ih =>
    obtain ⟨k, v⟩ := e
    by_cases hk : k = a
    · simp [lookupL, hk]
    · rw [lookupL, if_neg hk]
      rw [List.map_cons] at h
      rcases List.mem_cons.mp h with h1 | h1
      · exact absurd h1.symm hk
      · exact ih h1

/-- Filtering away a set of keys makes each of them unfindable. -/
theorem lookupL_filter_notmem {β : Type} {l : List (Nat × β)} {ids : List Nat} {x : Nat}
    (h : x ∈ ids) : lookupL (l.filter (fun e => decide (e.1 ∉ ids))) x = none := by
  induction l with
  | nil => simp [lookupL]
  | cons e rest ih =>
    obtain ⟨k, v⟩ := e
    rw [List.filter_cons]
    by_cases hmem : k ∈ ids
    · have hd : (decide ((k, v).1 ∉ ids)) = false := by simpa using hmem
      rw [hd]
      simpa using ih
    · have hk : ¬k = x := fun he => hmem (he ▸ h)
      have hd : (decide ((k, v).1 ∉ ids)) = true := by simpa using hmem
      rw [if_pos hd, lookupL, if_neg hk]
      exact ih

/-- Example document used by the concrete evaluations. -/
def exDoc : Doc := { clientID := 7, version := 0 }

/-- Example provider, connected over both transports and not yet synced. -/
def exProvider : Provider :=
  { roomname := "room", maxBackoffTime := 2500, disableBc := false, doc := exDoc,
    shouldConnect := true, wsconnected := true, wsconnecting := false, bcconnected := true,
    syncedFlag := false, wsUnsuccessfulReconnects := 0, ws := some 1,
    wsLastMessageReceived := 0, docs := [("room", exDoc)],
    docsAwareness := [("room", [(7, 1)])], syncedStatus := [],
    resyncIntervalOn := true, checkIntervalOn := true, pendingReconnects := [] }

/-- Example provider whose socket closed before ever opening. -/
def exProviderClosed : Provider :=
  { exProvider with wsconnected := false, ws := some 0, wsconnecting := true }

/-- C3: after the n-th consecutive unsuccessful connection attempt the close
handler schedules the next attempt after min(2 to the n times 100,
maxBackoffTime) milliseconds, a delay that is non decreasing in n and never
above the ceiling, and the counter resets to zero when a connection opens. -/
theorem C3_reconnect_backoff (p q : Provider) (n m cap now : Nat)
    (hconn : p.wsconnected = false) (hn : p.wsUnsuccessfulReconnects + 1 = n) :
    (wsOnClose p).1.wsUnsuccessfulReconnects = n ∧
    (wsOnClose p).1.pendingReconnects =
      p.pendingReconnects ++ [reconnectDelay n p.maxBackoffTime] ∧
    reconnectDelay m cap ≤ reconnectDelay (m + 1) cap ∧
    reconnectDelay m cap ≤ cap ∧
    (wsOnOpen q now).1.wsUnsuccessfulReconnects = 0 := by
  subst hn
  refine ⟨?_, ?_, ?_, ?_, ?_⟩
  · simp [wsOnClose, hconn]
  · simp [wsOnClose, hconn]
  · have h2 : (2 : Nat) ^ m ≤ 2 ^ (m + 1) :=
      Nat.pow_le_pow_right (by norm_num) (Nat.le_succ m)
    exact min_le_min (Nat.mul_le_mul h2 (le_refl 100)) le_rfl
  · exact min_le_right _ _
  · simp [wsOnOpen]

/-- Witness for C3 at a concrete closed-before-open provider state. -/
theorem C3_reconnect_backoff_witness :
    (wsOnClose exProviderClosed).1.wsUnsuccessfulReconnects = 1 ∧
    (wsOnClose exProviderClosed).1.pendingReconnects =
      exProviderClosed.pendingReconnects ++ [reconnectDelay 1 exProviderClosed.maxBackoffTime] ∧
    reconnectDelay 3 2500 ≤ reconnectDelay (3 + 1) 2500 ∧
    reconnectDelay 3 2500 ≤ 2500 ∧
    (wsOnOpen exProvider 42).1.wsUnsuccessfulReconnects = 0 :=
  C3_reconnect_backoff exProviderClosed exProvider 1 3 2500 42 (by rfl) (by rfl)

/-- The provider state after a disconnect call, with the unreachable error
case mapped to the input state. -/
def afterDisconnect (p : Provider) : Provider :=
  match disconnect p with
  | Except.ok r => r.1
  | Except.error _ => p

/-- The provider state after a destroy call, with the unreachable error
case mapped to the input state. -/
def afterDestroy (p : Provider) : Provider :=
  match destroy p with
  | Except.ok r => r.1
  | Except.error _ => p

/-- C6: disconnect never raises, leaves shouldConnect false, and calling it
a second time in a row (or on a provider that never connected) again raises
nothing and keeps shouldConnect false. -/
theorem C6_idempotent_disconnect (p : Provider) :
    (disconnect p).isOk = true ∧
    (afterDisconnect p).shouldConnect = false ∧
    (disconnect (afterDisconnect p)).isOk = true ∧
    (afterDisconnect (afterDisconnect p)).shouldConnect = false := by
  cases hws : p.ws <;> cases hbc : p.bcconnected <;>
    simp [disconnect, afterDisconnect, disconnectBc, broadcastMessage, closeSocketCall,
      Except.isOk, Except.toBool, hws, hbc]

/-- C7 counterexample: a provider with a pending reconnect timer scheduled
by the close handler still has that timer pending after disconnect returns
and after destroy returns: nothing cancels it. -/
theorem C7_counterexample :
    (afterDisconnect { exProviderClosed with ws := none, pendingReconnects := [200] }).pendingReconnects = [200] ∧
    (afterDestroy { exProviderClosed with ws := none, pendingReconnects := [200] }).pendingReconnects = [200] ∧
    ([200] : List Nat) ≠ [] := by
  refine ⟨by rfl, by rfl, by simp⟩

/-- C7 amended: disconnect and destroy leave every pending reconnect timer
in place, but they clear shouldConnect, and a reconnect timer firing on any
provider whose shouldConnect is false only pops the timer queue: setupWS
declines to open a connection, so the state is otherwise untouched and no
effect is produced. -/
theorem C7_timers_survive_but_harmless (p p2 q q2 r : Provider)
    (outs outs2 : List Out)
    (hd : disconnect p = Except.ok (q, outs))
    (hd2 : destroy p2 = Except.ok (q2, outs2))
    (hr : r.shouldConnect = false) :
    q.pendingReconnects = p.pendingReconnects ∧ q.shouldConnect = false ∧
    q2.pendingReconnects = p2.pendingReconnects ∧ q2.shouldConnect = false ∧
    (fireReconnectTimer r).1 = {r with pendingReconnects := r.pendingReconnects.tail} ∧
    (fireReconnectTimer r).2 = [] := by
  have hfire : fireReconnectTimer r = ({r with pendingReconnects := r.pendingReconnects.tail}, []) := by
    cases hpr : r.pendingReconnects with
    | nil =>
      simp only [fireReconnectTimer, hpr, List.tail_nil]
      conv_rhs => rw [← hpr]
    | cons d rest => simp [fireReconnectTimer, hpr, setupWS, hr]
  have hfields : ∀ s : Provider, (afterDisconnect s).pendingReconnects = s.pendingReconnects ∧
      (afterDisconnect s).shouldConnect = false := by
    intro s
    cases hws : s.ws <;> cases hbc : s.bcconnected <;>
      simp [afterDisconnect, disconnect, disconnectBc, broadcastMessage, closeSocketCall, hws, hbc]
  have hq : q = afterDisconnect p := by unfold afterDisconnect; rw [hd]
  have hd2b : disconnect {p2 with resyncIntervalOn := false, checkIntervalOn := false} =
      Except.ok (q2, outs2) := hd2
  have hq2 : q2 = afterDisconnect {p2 with resyncIntervalOn := false, checkIntervalOn := false} := by
    unfold afterDisconnect; rw [hd2b]
  refine ⟨?_, ?_, ?_, ?_, ?_, ?_⟩
  · rw [hq]; exact (hfields p).1
  · rw [hq]; exact (hfields p).2
  · rw [hq2]; exact (hfields _).1
  · rw [hq2]; exact (hfields _).2
  · rw [hfire]
  · rw [hfire]

/-- Example provider with one pending reconnect timer and a closed socket. -/
def exP7 : Provider := { exProviderClosed with ws := none, pendingReconnects := [200] }

/-- State after disconnecting exP7. -/
def exQ7 : Provider := { exP7 with shouldConnect := false, bcconnected := false }

/-- State after destroying exP7. -/
def exQ7d : Provider :=
  { exP7 with shouldConnect := false, bcconnected := false, resyncIntervalOn := false, checkIntervalOn := false }

/-- Effects of disconnecting exP7. -/
def exOuts7 : List Out := [Out.bcPublish (OutFrame.awarenessLeave "room" [7])]

/-- Example provider after the user turned intent off. -/
def exR7 : Provider := { exProvider with shouldConnect := false }

/-- Witness for the amended C7 at concrete states. -/
theorem C7_timers_survive_witness :
    exQ7.pendingReconnects = exP7.pendingReconnects ∧ exQ7.shouldConnect = false ∧
    exQ7d.pendingReconnects = exP7.pendingReconnects ∧ exQ7d.shouldConnect = false ∧
    (fireReconnectTimer exR7).1 = {exR7 with pendingReconnects := exR7.pendingReconnects.tail} ∧
    (fireReconnectTimer exR7).2 = [] :=
  C7_timers_survive_but_harmless exP7 exP7 exQ7 exQ7d exR7 exOuts7 exOuts7
    (by simp [disconnect, disconnectBc, broadcastMessage, closeSocketCall, exP7, exQ7, exOuts7,
      exProviderClosed, exProvider, exDoc])
    (by simp [destroy, disconnect, disconnectBc, broadcastMessage, closeSocketCall, exP7, exQ7d,
      exOuts7, exProviderClosed, exProvider, exDoc])
    (by rfl)

/-- C8: an update whose transaction origin is the provider itself is not
re-broadcast by the update listener, neither to the network nor to the
cross tab bus; an update with any other origin is framed as a Sync update
message for the room and handed to the dual path broadcast. -/
theorem C8_no_self_echo (p : Provider) (origin : Origin) (g : String)
    (h : origin ≠ Origin.self) :
    updateHandler p Origin.self = [] ∧
    updateHandler p origin = broadcastMessage p (OutFrame.syncUpdate p.roomname) ∧
    Out.wsSend (OutFrame.syncUpdate g) ∉ updateHandler p Origin.self ∧
    Out.bcPublish (OutFrame.syncUpdate g) ∉ updateHandler p Origin.self := by
  refine ⟨?_, ?_, ?_, ?_⟩ <;> simp [updateHandler, h]

/-- Witness for C8 at a concrete provider and a remote origin. -/
theorem C8_no_self_echo_witness :
    updateHandler exProvider Origin.self = [] ∧
    updateHandler exProvider (Origin.remote 3) =
      broadcastMessage exProvider (OutFrame.syncUpdate exProvider.roomname) ∧
    Out.wsSend (OutFrame.syncUpdate "room") ∉ updateHandler exProvider Origin.self ∧
    Out.bcPublish (OutFrame.syncUpdate "room") ∉ updateHandler exProvider Origin.self :=
  C8_no_self_echo exProvider (Origin.remote 3) "room" (by simp)

/-- C10: a Sync, Awareness or Query-Awareness frame whose embedded doc guid
is not a key of the docs map makes the handler log an error and return with
the state untouched and the response encoder empty. -/
theorem C10_unknown_guid (p : Provider) (f : InFrame) (em : Bool)
    (hmt : f.messageType = messageSync ∨ f.messageType = messageAwareness ∨
      f.messageType = messageQueryAwareness)
    (hguid : lookupL p.docs f.docGuid = none) :
    readMessage p f em = (p, Encoder.empty, [Out.logError "doc not found with id: "]) := by
  rcases hmt with h | h | h <;>
    simp [readMessage, messageSync, messageAwareness, messageAuth, messageQueryAwareness, h,
      handleSyncMsg, handleAwarenessMsg, handleQueryAwarenessMsg, hguid]

/-- Example frame addressed to an unknown doc guid. -/
def exF10 : InFrame :=
  { messageType := 1, docGuid := "nope", sync := SyncMsg.step1,
    awarenessEntries := [(9, some 4)], authDeny := false }

/-- Witness for C10 at a concrete provider and frame. -/
theorem C10_unknown_guid_witness :
    readMessage exProvider exF10 true =
      (exProvider, Encoder.empty, [Out.logError "doc not found with id: "]) :=
  C10_unknown_guid exProvider exF10 true (Or.inr (Or.inl (by rfl))) (by rfl)

/-- Example network environment with two healthy connections. -/
def exNet : Net := { readyState := [(0, 1), (1, 1)], failSend := [], persistenceOn := false }

/-- Example server room with two connections and one presence state. -/
def exRoom : Room :=
  { name := "room", docVersion := 0, gcFlag := true, conns := [(0, []), (1, [])],
    awareness := [(5, 1)] }

/-- Example server frame with an unregistered message type. -/
def exSFrame99 : SInFrame :=
  { messageType := 99, sync := SyncMsg.step1, awarenessEntries := [] }

/-- C5 counterexample: on a frame with message type 99 the server dispatcher
produces no output at all, in particular no log entry, contrary to the
claim that both dispatchers log the condition. -/
theorem C5_counterexample :
    messageListener 5 exNet exRoom 0 exSFrame99 = (exRoom, ([] : List SOut)) := by
  rfl

/-- C5 amended: on a frame with an unregistered message type the client
dispatcher logs the condition and drops the frame, touching nothing but the
receive timestamp and writing no response; the server dispatcher silently
drops the frame with no output and no state change at all. -/
theorem C5_unknown_message_type (p : Provider) (now : Nat) (f : InFrame) (k : Nat)
    (net : Net) (room : Room) (conn : Nat) (g : SInFrame)
    (hf : f.messageType = 99) (hg : g.messageType = 99) :
    wsOnMessage p now f =
      ({p with wsLastMessageReceived := now}, [Out.logError "Unable to compute message"]) ∧
    messageListener k net room conn g = (room, []) := by
  constructor
  · simp [wsOnMessage, readMessage, hf, messageSync, messageAwareness, messageAuth,
      messageQueryAwareness, encLength, needSend, Encoder.empty]
  · simp [messageListener, hg, messageSync, messageAwareness]

/-- Example client frame with an unregistered message type. -/
def exF99 : InFrame :=
  { messageType := 99, docGuid := "room", sync := SyncMsg.step1,
    awarenessEntries := [], authDeny := false }

/-- Witness for the amended C5 at concrete inputs. -/
theorem C5_unknown_message_type_witness :
    wsOnMessage exProvider 9 exF99 =
      ({exProvider with wsLastMessageReceived := 9},
        [Out.logError "Unable to compute message"]) ∧
    messageListener 5 exNet exRoom 0 exSFrame99 = (exRoom, []) :=
  C5_unknown_message_type exProvider 9 exF99 5 exNet exRoom 0 exSFrame99 (by rfl) (by rfl)

/-- Tests whether a decoded sync sub message is a full state step 2. -/
def isStep2 : SyncMsg → Bool
  | SyncMsg.step2 _ => true
  | _ => false

/-- A handshake completing frame: a Sync message for the room of the
provider whose sub message is a full state step 2, addressed to a known
doc. -/
def qualifyingB (p : Provider) (f : InFrame) : Bool :=
  (f.messageType == messageSync) && (f.docGuid == p.roomname) && isStep2 f.sync &&
    (lookupL p.docs f.docGuid).isSome

/-- Number of false to true transitions of the synced flag along a run of
inbound network frames. -/
def syncedFlips (now : Nat) : Provider → List InFrame → Nat
  | _, [] => 0
  | p, f :: fs =>
    (if p.syncedFlag = false ∧ ((wsOnMessage p now f).1).syncedFlag = true then 1 else 0) +
      syncedFlips now (wsOnMessage p now f).1 fs

/-- The setter always stores the requested value. -/
theorem setSyncedProp_fst (p : Provider) (b : Bool) : (setSyncedProp p b).1.syncedFlag = b := by
  unfold setSyncedProp
  split_ifs with h
  · rfl
  · exact not_ne_iff.mp h

/-- The setter emits only the two sync events. -/
theorem setSyncedProp_snd (p : Provider) (b : Bool) (o : Out)
    (ho : o ∈ (setSyncedProp p b).2) : o = Out.emitSynced b ∨ o = Out.emitSync b := by
  unfold setSyncedProp at ho
  split_ifs at ho with h
  · rcases List.mem_cons.mp ho with h1 | h1
    · exact Or.inl h1
    · exact Or.inr (List.mem_singleton.mp h1)
  · simp at ho

/-- The sub document sync bookkeeping never touches the main synced flag. -/
theorem updateSyncedStatus_fst (p : Provider) (id : String) (b : Bool) :
    (updateSyncedStatus p id b).1.syncedFlag = p.syncedFlag := by
  simp only [updateSyncedStatus]
  split_ifs <;> rfl

/-- The sub document sync bookkeeping emits only the sub document event. -/
theorem updateSyncedStatus_snd (p : Provider) (id : String) (b : Bool) (o : Out)
    (ho : o ∈ (updateSyncedStatus p id b).2) : o = Out.emitSubdocSynced id b := by
  simp only [updateSyncedStatus] at ho
  split_ifs at ho with h
  · exact List.mem_singleton.mp ho
  · simp at ho

/-- A document update attributed to the provider itself is never
re-broadcast, for the main document and sub documents alike. -/
theorem docUpdateCascade_self (p : Provider) (g : String) :
    docUpdateCascade p g Origin.self = [] := by
  simp [docUpdateCascade, updateHandler, subdocUpdateHandler]

/-- Every output of the dual path broadcast carries the given frame. -/
theorem mem_broadcastMessage {p : Provider} {buf : OutFrame} {o : Out}
    (h : o ∈ broadcastMessage p buf) : o = Out.wsSend buf ∨ o = Out.bcPublish buf := by
  unfold broadcastMessage at h
  rcases List.mem_append.mp h with h1 | h1
  · cases hw : p.ws with
    | none => rw [hw] at h1; simp at h1
    | some rs =>
      rw [hw] at h1
      dsimp only at h1
      split_ifs at h1 with hc
      · exact Or.inl (List.mem_singleton.mp h1)
      · simp at h1
  · split_ifs at h1 with hc
    · exact Or.inr (List.mem_singleton.mp h1)
    · simp at h1

/-- Helper: the conditional setter stores true exactly when taken. -/
theorem ite_setSyncedProp_fst (x : Provider) (c : Prop) [Decidable c] :
    ((if c then setSyncedProp x true else (x, [])).1).syncedFlag =
      (if c then true else x.syncedFlag) := by
  split_ifs with h
  · exact setSyncedProp_fst x true
  · rfl

/-- Helper: the conditional sub document bookkeeping never touches the
synced flag. -/
theorem ite_updateSyncedStatus_fst (x : Provider) (id : String) (c : Prop) [Decidable c] :
    ((if c then updateSyncedStatus x id true else (x, [])).1).syncedFlag = x.syncedFlag := by
  split_ifs with h
  · exact updateSyncedStatus_fst x id true
  · rfl

/-- The Sync handler raises the synced flag exactly on an emit enabled full
state step 2 for the room of the provider on a known doc; otherwise it
leaves the flag alone, and it never lowers it. -/
theorem handleSyncMsg_syncedFlag (p : Provider) (enc : Encoder) (f : InFrame) (em : Bool) :
    (handleSyncMsg p enc f em).1.syncedFlag =
      (p.syncedFlag ||
        (em && (f.docGuid == p.roomname) && isStep2 f.sync &&
          (lookupL p.docs f.docGuid).isSome)) := by
  simp only [handleSyncMsg]
  cases hd : lookupL p.docs f.docGuid with
  | none => simp
  | some doc =>
    rw [ite_updateSyncedStatus_fst, ite_setSyncedProp_fst]
    cases hss : f.sync <;> cases hem : em <;>
      by_cases hg : f.docGuid = p.roomname <;> cases hsy : p.syncedFlag <;>
        simp [readSyncMessage, isStep2, messageYjsSyncStep1, messageYjsSyncStep2,
          messageYjsUpdate, hem, hg, hsy]

/-- The Awareness handler never touches the synced flag. -/
theorem handleAwarenessMsg_fst_syncedFlag (p : Provider) (enc : Encoder) (f : InFrame) :
    (handleAwarenessMsg p enc f).1.syncedFlag = p.syncedFlag := by
  simp only [handleAwarenessMsg]
  cases hd : lookupL p.docs f.docGuid <;> simp

/-- The Query-Awareness handler leaves the state untouched. -/
theorem handleQueryAwarenessMsg_fst (p : Provider) (enc : Encoder) (f : InFrame) :
    (handleQueryAwarenessMsg p enc f).1 = p := by
  simp only [handleQueryAwarenessMsg]
  cases hd : lookupL p.docs f.docGuid <;> simp

/-- The dispatcher raises the synced flag exactly on an emit enabled
qualifying frame and never lowers it. -/
theorem readMessage_syncedFlag (p : Provider) (f : InFrame) (em : Bool) :
    (readMessage p f em).1.syncedFlag = (p.syncedFlag || (em && qualifyingB p f)) := by
  simp only [readMessage, qualifyingB]
  split_ifs with h0 h1 h2 h3
  · have hb : (f.messageType == messageSync) = true := beq_iff_eq.mpr h0
    rw [handleSyncMsg_syncedFlag]
    simp [hb, Bool.and_comm, Bool.and_left_comm, Bool.and_assoc]
  · have hb : (f.messageType == messageSync) = false := beq_eq_false_iff_ne.mpr h0
    rw [handleAwarenessMsg_fst_syncedFlag]
    simp [hb]
  · have hb : (f.messageType == messageSync) = false := beq_eq_false_iff_ne.mpr h0
    simp [handleAuthMsg, hb]
  · have hb : (f.messageType == messageSync) = false := beq_eq_false_iff_ne.mpr h0
    rw [handleQueryAwarenessMsg_fst]
    simp [hb]
  · have hb : (f.messageType == messageSync) = false := beq_eq_false_iff_ne.mpr h0
    simp [hb]

/-- The network message handler state is the dispatcher state. -/
theorem wsOnMessage_fst (p : Provider) (now : Nat) (f : InFrame) :
    (wsOnMessage p now f).1 =
      (readMessage {p with wsLastMessageReceived := now} f true).1 := by
  simp only [wsOnMessage]
  split_ifs <;> rfl

/-- The network message handler raises the synced flag exactly on a
qualifying frame and never lowers it. -/
theorem wsOnMessage_syncedFlag (p : Provider) (now : Nat) (f : InFrame) :
    ((wsOnMessage p now f).1).syncedFlag = (p.syncedFlag || qualifyingB p f) := by
  rw [wsOnMessage_fst, readMessage_syncedFlag]
  simp [qualifyingB]

/-- Once raised within a connection, the flag stays raised across further
inbound frames, so it contributes no further transitions. -/
theorem syncedFlips_of_true (now : Nat) (p : Provider) (fs : List InFrame)
    (h : p.syncedFlag = true) : syncedFlips now p fs = 0 := by
  induction fs generalizing p with
  | nil => rfl
  | cons f fs ih =>
    have h1 : ((wsOnMessage p now f).1).syncedFlag = true := by
      rw [wsOnMessage_syncedFlag, h]; rfl
    unfold syncedFlips
    rw [ih _ h1]
    simp [h]

/-- At most one false to true transition of the synced flag can occur along
any run of inbound network frames. -/
theorem syncedFlips_le_one (now : Nat) (p : Provider) (fs : List InFrame)
    (h : p.syncedFlag = false) : syncedFlips now p fs ≤ 1 := by
  induction fs generalizing p with
  | nil => simp [syncedFlips]
  | cons f fs ih =>
    unfold syncedFlips
    cases hq : ((wsOnMessage p now f).1).syncedFlag with
    | true =>
      rw [syncedFlips_of_true now _ fs hq]
      simp [h]
    | false =>
      have h2 := ih _ hq
      simp [hq]
      omega

/-- The disconnect presence sweep never touches the synced flag. -/
theorem foldl_rnla_syncedFlag (l : List String) (acc : Provider × List Out) :
    ((l.foldl rnlaStep acc).1).syncedFlag = acc.1.syncedFlag := by
  induction l generalizing acc with
  | nil => rfl
  | cons d rest ih =>
    rw [List.foldl_cons, ih]
    simp only [rnlaStep]
    cases hd : lookupL acc.1.docs d <;> simp

/-- The close handler of a previously connected socket resets the synced
flag. -/
theorem wsOnClose_syncedFlag (r : Provider) (h : r.wsconnected = true) :
    ((wsOnClose r).1).syncedFlag = false := by
  simp only [wsOnClose, removeNonLocalAwareness, h, if_true]
  simp only [foldl_rnla_syncedFlag]
  simp [setSyncedProp_fst]

/-- Every output of the Sync handler is a log entry or a sync status
event. -/
theorem handleSyncMsg_snd_mem (p : Provider) (enc : Encoder) (f : InFrame) (em : Bool)
    (o : Out) (ho : o ∈ (handleSyncMsg p enc f em).2.2) :
    o = Out.logError "doc not found with id: " ∨ (∃ b, o = Out.emitSynced b) ∨
      (∃ b, o = Out.emitSync b) ∨ (∃ g b, o = Out.emitSubdocSynced g b) := by
  simp only [handleSyncMsg] at ho
  cases hd : lookupL p.docs f.docGuid with
  | none =>
    rw [hd] at ho
    simp at ho
    exact Or.inl ho
  | some doc =>
    rw [hd] at ho
    dsimp only at ho
    rw [docUpdateCascade_self, ite_self] at ho
    simp only [List.nil_append] at ho
    split_ifs at ho with h1 h2 h3
    · rcases List.mem_append.mp ho with hm | hm
      · rcases setSyncedProp_snd _ _ _ hm with he | he
        · exact Or.inr (Or.inl ⟨true, he⟩)
        · exact Or.inr (Or.inr (Or.inl ⟨true, he⟩))
      · exact Or.inr (Or.inr (Or.inr ⟨f.docGuid, true, updateSyncedStatus_snd _ _ _ _ hm⟩))
    · rcases List.mem_append.mp ho with hm | hm
      · rcases setSyncedProp_snd _ _ _ hm with he | he
        · exact Or.inr (Or.inl ⟨true, he⟩)
        · exact Or.inr (Or.inr (Or.inl ⟨true, he⟩))
      · simp at hm
    · rcases List.mem_append.mp ho with hm | hm
      · simp at hm
      · exact Or.inr (Or.inr (Or.inr ⟨f.docGuid, true, updateSyncedStatus_snd _ _ _ _ hm⟩))
    · simp at ho

/-- When the session is already synced, the Sync handler emits no synced or
sync event at all. -/
theorem handleSyncMsg_snd_mem_synced (p : Provider) (enc : Encoder) (f : InFrame) (em : Bool)
    (o : Out) (hsy : p.syncedFlag = true) (ho : o ∈ (handleSyncMsg p enc f em).2.2) :
    o = Out.logError "doc not found with id: " ∨ (∃ g b, o = Out.emitSubdocSynced g b) := by
  simp only [handleSyncMsg] at ho
  cases hd : lookupL p.docs f.docGuid with
  | none =>
    rw [hd] at ho
    simp at ho
    exact Or.inl ho
  | some doc =>
    rw [hd] at ho
    dsimp only at ho
    rw [docUpdateCascade_self, ite_self] at ho
    simp only [List.nil_append] at ho
    split_ifs at ho with h1 h2 h3
    · exact absurd hsy (by simpa using h1.2.2.2)
    · exact absurd hsy (by simpa using h1.2.2.2)
    · rcases List.mem_append.mp ho with hm | hm
      · simp at hm
      · exact Or.inr ⟨f.docGuid, true, updateSyncedStatus_snd _ _ _ _ hm⟩
    · simp at ho

/-- Every output of the Awareness handler is a log entry or an awareness
frame broadcast. -/
theorem handleAwarenessMsg_snd_mem (p : Provider) (enc : Encoder) (f : InFrame) (o : Out)
    (ho : o ∈ (handleAwarenessMsg p enc f).2.2) :
    o = Out.logError "doc not found with id: " ∨
      (∃ g ids, o = Out.wsSend (OutFrame.awareness g ids)) ∨
      (∃ g ids, o = Out.bcPublish (OutFrame.awareness g ids)) := by
  simp only [handleAwarenessMsg] at ho
  cases hd : lookupL p.docs f.docGuid with
  | none =>
    rw [hd] at ho
    simp at ho
    exact Or.inl ho
  | some doc =>
    rw [hd] at ho
    dsimp only at ho
    split_ifs at ho with h1
    · rcases mem_broadcastMessage ho with he | he
      · exact Or.inr (Or.inl ⟨f.docGuid, f.awarenessEntries.map Prod.fst, he⟩)
      · exact Or.inr (Or.inr ⟨f.docGuid, f.awarenessEntries.map Prod.fst, he⟩)
    · simp at ho

/-- Classification of every possible dispatcher output. -/
theorem readMessage_out_mem (p : Provider) (f : InFrame) (em : Bool) (o : Out)
    (ho : o ∈ (readMessage p f em).2.2) :
    (∃ s, o = Out.logError s) ∨ (∃ b, o = Out.emitSynced b) ∨ (∃ b, o = Out.emitSync b) ∨
      (∃ g b, o = Out.emitSubdocSynced g b) ∨ o = Out.permissionDenied ∨
      (∃ g ids, o = Out.wsSend (OutFrame.awareness g ids)) ∨
      (∃ g ids, o = Out.bcPublish (OutFrame.awareness g ids)) := by
  simp only [readMessage] at ho
  split_ifs at ho with h0 h1 h2 h3
  · rcases handleSyncMsg_snd_mem p Encoder.empty f em o ho with h | h | h | h
    · exact Or.inl ⟨_, h⟩
    · exact Or.inr (Or.inl h)
    · exact Or.inr (Or.inr (Or.inl h))
    · exact Or.inr (Or.inr (Or.inr (Or.inl h)))
  · rcases handleAwarenessMsg_snd_mem p Encoder.empty f o ho with h | h | h
    · exact Or.inl ⟨_, h⟩
    · exact Or.inr (Or.inr (Or.inr (Or.inr (Or.inr (Or.inl h)))))
    · exact Or.inr (Or.inr (Or.inr (Or.inr (Or.inr (Or.inr h)))))
  · simp only [handleAuthMsg] at ho
    split_ifs at ho with h4
    · simp at ho
      exact Or.inr (Or.inr (Or.inr (Or.inr (Or.inl ho))))
    · simp at ho
  · simp only [handleQueryAwarenessMsg] at ho
    cases hd : lookupL p.docs f.docGuid with
    | none =>
      rw [hd] at ho
      simp at ho
      exact Or.inl ⟨_, ho⟩
    | some doc =>
      rw [hd] at ho
      simp at ho
  · simp at ho
    exact Or.inl ⟨_, ho⟩

/-- The dispatcher never writes a response frame send itself: the response
is returned in the encoder, the caller decides the path. -/
theorem readMessage_out_not_resp (p : Provider) (f : InFrame) (em : Bool) (o : Out)
    (ho : o ∈ (readMessage p f em).2.2) (e : Encoder) :
    o ≠ Out.wsSend (OutFrame.resp e) := by
  rcases readMessage_out_mem p f em o ho with h | h | h | h | h | h | h
  · obtain ⟨s, rfl⟩ := h; simp
  · obtain ⟨b, rfl⟩ := h; simp
  · obtain ⟨b, rfl⟩ := h; simp
  · obtain ⟨g, b, rfl⟩ := h; simp
  · subst h; simp
  · obtain ⟨g, ids, rfl⟩ := h; simp
  · obtain ⟨g, ids, rfl⟩ := h; simp

/-- When the session is already synced, the dispatcher emits no synced or
sync event. -/
theorem readMessage_no_sync_events (p : Provider) (f : InFrame) (em : Bool) (o : Out)
    (b : Bool) (hsy : p.syncedFlag = true) (ho : o ∈ (readMessage p f em).2.2) :
    o ≠ Out.emitSynced b ∧ o ≠ Out.emitSync b := by
  simp only [readMessage] at ho
  split_ifs at ho with h0 h1 h2 h3
  · rcases handleSyncMsg_snd_mem_synced p Encoder.empty f em o hsy ho with h | h
    · subst h; simp
    · obtain ⟨g, c, rfl⟩ := h; simp
  · rcases handleAwarenessMsg_snd_mem p Encoder.empty f o ho with h | h | h
    · subst h; simp
    · obtain ⟨g, ids, rfl⟩ := h; simp
    · obtain ⟨g, ids, rfl⟩ := h; simp
  · simp only [handleAuthMsg] at ho
    split_ifs at ho with h4
    · simp at ho; subst ho; simp
    · simp at ho
  · simp only [handleQueryAwarenessMsg] at ho
    cases hd : lookupL p.docs f.docGuid with
    | none =>
      rw [hd] at ho
      simp at ho
      subst ho; simp
    | some doc =>
      rw [hd] at ho
      simp at ho
  · simp at ho
    subst ho; simp

/-- On a qualifying frame received while unsynced, the network handler
emits exactly one synced event and one sync event, both carrying true. -/
theorem wsOnMessage_qualifying_outs (p : Provider) (now : Nat) (f : InFrame)
    (hsy : p.syncedFlag = false) (hq : qualifyingB p f = true) :
    (wsOnMessage p now f).2 = [Out.emitSynced true, Out.emitSync true] := by
  have hq' := hq
  unfold qualifyingB at hq'
  simp only [Bool.and_eq_true, beq_iff_eq] at hq'
  obtain ⟨⟨⟨hmt, hg⟩, hs2⟩, hlk⟩ := hq'
  obtain ⟨doc, hd⟩ := Option.isSome_iff_exists.mp hlk
  cases hss : f.sync with
  | step1 => rw [hss] at hs2; simp [isStep2] at hs2
  | update d => rw [hss] at hs2; simp [isStep2] at hs2
  | step2 d =>
    rw [hg] at hd
    simp [wsOnMessage, readMessage, hmt, handleSyncMsg, hd, hss, readSyncMessage,
      messageYjsSyncStep2, hg, hsy, docUpdateCascade_self, setSyncedProp,
      updateSyncedStatus, needSend, encLength, Encoder.empty]

/-- An already synced session emits no synced or sync event on any inbound
network frame. -/
theorem wsOnMessage_no_sync_events (p : Provider) (now : Nat) (f : InFrame) (b : Bool)
    (hsy : p.syncedFlag = true) :
    Out.emitSynced b ∉ (wsOnMessage p now f).2 ∧ Out.emitSync b ∉ (wsOnMessage p now f).2 := by
  have hset : ({p with wsLastMessageReceived := now} : Provider).syncedFlag = true := hsy
  constructor
  · intro hmem
    simp only [wsOnMessage] at hmem
    split_ifs at hmem with hc
    · rcases List.mem_append.mp hmem with hm | hm
      · exact (readMessage_no_sync_events _ f true _ b hset hm).1 rfl
      · simp at hm
    · exact (readMessage_no_sync_events _ f true _ b hset hmem).1 rfl
  · intro hmem
    simp only [wsOnMessage] at hmem
    split_ifs at hmem with hc
    · rcases List.mem_append.mp hmem with hm | hm
      · exact (readMessage_no_sync_events _ f true _ b hset hm).2 rfl
      · simp at hm
    · exact (readMessage_no_sync_events _ f true _ b hset hmem).2 rfl

/-- C1: within a connection the synced flag transitions false to true at
most once over any run of inbound frames; the network handler raises it
exactly on a full state step 2 Sync frame for the room of the provider on
a known doc received while unsynced, emitting one synced and one sync
event with the boolean state; an already synced session is not triggered
again and emits no further synced or sync events; and the close handler of
a connected socket resets the flag to false. -/
theorem C1_synced_one_shot (p q r : Provider) (now : Nat) (f : InFrame)
    (fs : List InFrame) (b : Bool)
    (hp : p.syncedFlag = false) (hq : q.syncedFlag = true) (hr : r.wsconnected = true) :
    syncedFlips now p fs ≤ 1 ∧
    (((wsOnMessage p now f).1).syncedFlag = true ↔ qualifyingB p f = true) ∧
    (qualifyingB p f = true →
      (wsOnMessage p now f).2 = [Out.emitSynced true, Out.emitSync true]) ∧
    ((wsOnMessage q now f).1).syncedFlag = true ∧
    Out.emitSynced b ∉ (wsOnMessage q now f).2 ∧
    Out.emitSync b ∉ (wsOnMessage q now f).2 ∧
    ((wsOnClose r).1).syncedFlag = false := by
  refine ⟨syncedFlips_le_one now p fs hp, ?_, ?_, ?_,
    (wsOnMessage_no_sync_events q now f b hq).1, (wsOnMessage_no_sync_events q now f b hq).2,
    wsOnClose_syncedFlag r hr⟩
  · rw [wsOnMessage_syncedFlag, hp]
    simp
  · intro hqf
    exact wsOnMessage_qualifying_outs p now f hp hqf
  · rw [wsOnMessage_syncedFlag, hq]
    rfl

/-- Example qualifying frame: a full state step 2 for the example room. -/
def exStep2 : InFrame :=
  { messageType := 0, docGuid := "room", sync := SyncMsg.step2 1,
    awarenessEntries := [], authDeny := false }

/-- Example provider that is already synced. -/
def exProviderSynced : Provider := { exProvider with syncedFlag := true }

/-- Witness for C1 at concrete states and a concrete step 2 frame. -/
theorem C1_synced_one_shot_witness :
    syncedFlips 5 exProvider [exStep2] ≤ 1 ∧
    (((wsOnMessage exProvider 5 exStep2).1).syncedFlag = true ↔
      qualifyingB exProvider exStep2 = true) ∧
    (qualifyingB exProvider exStep2 = true →
      (wsOnMessage exProvider 5 exStep2).2 = [Out.emitSynced true, Out.emitSync true]) ∧
    ((wsOnMessage exProviderSynced 5 exStep2).1).syncedFlag = true ∧
    Out.emitSynced true ∉ (wsOnMessage exProviderSynced 5 exStep2).2 ∧
    Out.emitSync true ∉ (wsOnMessage exProviderSynced 5 exStep2).2 ∧
    ((wsOnClose exProvider).1).syncedFlag = false :=
  C1_synced_one_shot exProvider exProviderSynced exProvider 5 exStep2 [exStep2] true
    (by rfl) (by rfl) (by rfl)

/-- C9: dispatching a cross tab message with a foreign origin never changes
the synced flag (emit synced is suppressed on that path), and the non
empty response it may produce goes back to the cross tab bus only, never
onto the network socket. -/
theorem C9_bc_dispatch (p : Provider) (f : InFrame) (origin : Origin) (e : Encoder)
    (h : origin ≠ Origin.self) :
    ((bcSubscriber p f origin).1).syncedFlag = p.syncedFlag ∧
    Out.wsSend (OutFrame.resp e) ∉ (bcSubscriber p f origin).2 ∧
    (encLength (readMessage p f false).2.1 > 1 →
      Out.bcPublish (OutFrame.resp (readMessage p f false).2.1) ∈ (bcSubscriber p f origin).2) := by
  simp only [bcSubscriber, if_pos h]
  refine ⟨?_, ?_, ?_⟩
  · split_ifs with hl <;> rw [readMessage_syncedFlag] <;> simp
  · intro hmem
    split_ifs at hmem with hl
    · rcases List.mem_append.mp hmem with hm | hm
      · exact readMessage_out_not_resp p f false _ hm e rfl
      · simp at hm
    · exact readMessage_out_not_resp p f false _ hmem e rfl
  · intro hlen
    rw [if_pos hlen]
    exact List.mem_append.mpr (Or.inr (List.mem_singleton.mpr rfl))

/-- Witness for C9 at a concrete provider, frame and origin. -/
theorem C9_bc_dispatch_witness :
    ((bcSubscriber exProvider exStep2 (Origin.remote 2)).1).syncedFlag =
      exProvider.syncedFlag ∧
    Out.wsSend (OutFrame.resp Encoder.empty) ∉
      (bcSubscriber exProvider exStep2 (Origin.remote 2)).2 ∧
    (encLength (readMessage exProvider exStep2 false).2.1 > 1 →
      Out.bcPublish (OutFrame.resp (readMessage exProvider exStep2 false).2.1) ∈
        (bcSubscriber exProvider exStep2 (Origin.remote 2)).2) :=
  C9_bc_dispatch exProvider exStep2 (Origin.remote 2) Encoder.empty (by simp)

/-- Sending to a healthy connection just emits the frame and leaves the
room untouched. -/
theorem sendF_ok (fuel : Nat) (net : Net) (room : Room) (c : Nat) (m : SFrameOut)
    (h : connOkB net c = true) (hf : 1 ≤ fuel) :
    sendF fuel net room c m = (room, [SOut.sendTo c m]) := by
  cases fuel with
  | zero => omega
  | succ k =>
    have h' := h
    simp only [connOkB, Bool.and_eq_true, Bool.or_eq_true, beq_iff_eq, Bool.not_eq_true',
      decide_eq_false_iff_not] at h'
    obtain ⟨hrs, hmem⟩ := h'
    have hcond : ¬((lookupL net.readyState c).getD 3 ≠ 0 ∧
        (lookupL net.readyState c).getD 3 ≠ 1) := by
      rcases hrs with h1 | h1 <;> simp [h1]
    have hcond2 : ¬(((lookupL net.readyState c).getD 3 ≠ 0 ∧
        (lookupL net.readyState c).getD 3 ≠ 1) ∨ c ∈ net.failSend) :=
      not_or.mpr ⟨hcond, hmem⟩
    simp only [sendF]
    rw [if_neg hcond, if_neg hcond2]
    simp

/-- The forEach send loop over healthy targets present in the room sends
the frame to each in order and leaves the room untouched. -/
theorem broadcastRoomF_healthy (net : Net) (m : SFrameOut) (targets : List Nat) :
    ∀ (fuel : Nat) (room : Room) (outs0 : List SOut),
      targets.length + 1 ≤ fuel →
      (∀ x ∈ targets, connOkB net x = true) →
      (∀ x ∈ targets, x ∈ room.conns.map Prod.fst) →
      broadcastRoomF fuel net m targets (room, outs0) =
        (room, outs0 ++ targets.map (fun x => SOut.sendTo x m)) := by
  induction targets with
  | nil =>
    intro fuel room outs0 hf h1 h2
    cases fuel with
    | zero => omega
    | succ k => simp [broadcastRoomF]
  | cons c rest ih =>
    intro fuel room outs0 hf h1 h2
    cases fuel with
    | zero => simp at hf
    | succ k =>
      have hksucc : rest.length + 1 ≤ k := by
        simp only [List.length_cons] at hf
        omega
      have hsome : (lookupL room.conns c).isSome :=
        lookupL_isSome_of_mem (h2 c (List.mem_cons_self c rest))
      simp only [broadcastRoomF]
      rw [if_pos hsome]
      rw [sendF_ok k net room c m (h1 c (List.mem_cons_self c rest)) (by omega)]
      rw [ih k room (outs0 ++ [SOut.sendTo c m]) hksucc
        (fun x hx => h1 x (List.mem_cons_of_mem c hx))
        (fun x hx => h2 x (List.mem_cons_of_mem c hx))]
      simp

/-- The change handler with a null origin broadcasts one awareness update
with the changed ids to every connection of the room. -/
theorem changeHandlerF_none (k : Nat) (net : Net) (room : Room) (removed : List Nat)
    (h1 : ∀ x ∈ room.conns.map Prod.fst, connOkB net x = true)
    (hk : (room.conns.map Prod.fst).length + 1 ≤ k) :
    changeHandlerF (Nat.succ k) net room [] [] removed none =
      (room, (room.conns.map Prod.fst).map
        (fun x => SOut.sendTo x (SFrameOut.awarenessUpd removed))) := by
  simp only [changeHandlerF, List.nil_append]
  rw [broadcastRoomF_healthy net (SFrameOut.awarenessUpd removed) (room.conns.map Prod.fst)
    k room [] hk h1 (fun x hx => hx)]
  simp

/-- C4: closing a server connection whose controlled participant id set is
a and b removes it from the connection set of the room, removes the states
of a and b from the Presence Registry, and broadcasts one awareness
removal update carrying a and b to every remaining connection. -/
theorem C4_presence_cleanup (net : Net) (room : Room) (c a b : Nat)
    (hc : lookupL room.conns c = some [a, b])
    (ha : (lookupL room.awareness a).isSome = true)
    (hb : (lookupL room.awareness b).isSome = true)
    (hhealthy : ∀ x ∈ (removeL room.conns c).map Prod.fst, connOkB net x = true) :
    lookupL ((closeConnF (room.conns.length + 4) net room c).1).conns c = none ∧
    lookupL ((closeConnF (room.conns.length + 4) net room c).1).awareness a = none ∧
    lookupL ((closeConnF (room.conns.length + 4) net room c).1).awareness b = none ∧
    ∀ x ∈ (removeL room.conns c).map Prod.fst,
      SOut.sendTo x (SFrameOut.awarenessUpd [a, b]) ∈
        (closeConnF (room.conns.length + 4) net room c).2 := by
  have hfilter : List.filter (fun id => (lookupL room.awareness id).isSome) [a, b] = [a, b] := by
    simp [ha, hb]
  have hlen : ((removeL room.conns c).map Prod.fst).length + 1 ≤ room.conns.length + 1 := by
    have := List.length_filter_le (fun e => decide (e.1 ≠ c)) room.conns
    simp only [List.length_map, removeL]
    omega
  have hkey : closeConnF (room.conns.length + 4) net room c =
      ({room with conns := removeL room.conns c, awareness := room.awareness.filter (fun e => decide (e.1 ∉ [a, b]))},
        ((removeL room.conns c).map Prod.fst).map
            (fun x => SOut.sendTo x (SFrameOut.awarenessUpd [a, b])) ++
          ((if removeL room.conns c = [] ∧ net.persistenceOn = true then
              [SOut.writeState room.name, SOut.destroyDoc room.name,
               SOut.deleteFromRegistry room.name]
            else []) ++ [SOut.closeSocket c])) := by
    rw [show room.conns.length + 4 = Nat.succ (room.conns.length + 3) from rfl]
    simp only [closeConnF]
    rw [hc]
    dsimp only
    rw [show room.conns.length + 3 = Nat.succ (room.conns.length + 2) from rfl]
    simp only [removeAwarenessStatesF]
    rw [hfilter]
    rw [if_pos (by simp : ([a, b] : List Nat) ≠ [])]
    rw [show room.conns.length + 2 = Nat.succ (room.conns.length + 1) from rfl]
    rw [changeHandlerF_none (room.conns.length + 1) net _ [a, b]
      (by dsimp only; exact hhealthy) (by dsimp only; exact hlen)]
    dsimp only
    simp
  refine ⟨?_, ?_, ?_, ?_⟩
  · rw [hkey]
    exact lookupL_removeL room.conns c
  · rw [hkey]
    exact lookupL_filter_notmem (by simp)
  · rw [hkey]
    exact lookupL_filter_notmem (by simp)
  · intro x hx
    rw [hkey]
    exact List.mem_append.mpr (Or.inl (List.mem_map.mpr ⟨x, hx, rfl⟩))

/-- Example room with three connections; connection 2 controls the two
participants whose states populate the registry. -/
def exRoom4 : Room :=
  { name := "room", docVersion := 0, gcFlag := true,
    conns := [(0, []), (1, []), (2, [5, 6])], awareness := [(5, 1), (6, 2)] }

/-- Witness for C4 at a concrete room closing connection 2. -/
theorem C4_presence_cleanup_witness :
    lookupL ((closeConnF (exRoom4.conns.length + 4) exNet exRoom4 2).1).conns 2 = none ∧
    lookupL ((closeConnF (exRoom4.conns.length + 4) exNet exRoom4 2).1).awareness 5 = none ∧
    lookupL ((closeConnF (exRoom4.conns.length + 4) exNet exRoom4 2).1).awareness 6 = none ∧
    SOut.sendTo 0 (SFrameOut.awarenessUpd [5, 6]) ∈
      (closeConnF (exRoom4.conns.length + 4) exNet exRoom4 2).2 ∧
    SOut.sendTo 1 (SFrameOut.awarenessUpd [5, 6]) ∈
      (closeConnF (exRoom4.conns.length + 4) exNet exRoom4 2).2 :=
  have h := C4_presence_cleanup exNet exRoom4 2 5 6 (by rfl) (by rfl) (by rfl) (by decide)
  ⟨h.1, h.2.1, h.2.2.1, h.2.2.2 0 (by decide), h.2.2.2 1 (by decide)⟩

/-- Registry deletions are the only effect interpretation that touches the
docs map. -/
theorem applyRegistryOuts_docs (s : ServerState) (outs : List SOut)
    (h : ∀ nm, SOut.deleteFromRegistry nm ∉ outs) :
    (applyRegistryOuts s outs).docs = s.docs := by
  induction outs generalizing s with
  | nil => rfl
  | cons o rest ih =>
    cases o
    case deleteFromRegistry nm => exact absurd (List.mem_cons_self _ _) (h nm)
    all_goals exact ih s (fun nm hm => h nm (List.mem_cons_of_mem _ hm))

/-- Connection setup either finds the room name already bound and leaves
the registry untouched, or appends exactly one fresh binding for it; in
both cases the returned room identity is the one the registry records. -/
theorem setupWSConnection_docs (fuel : Nat) (net : Net) (s : ServerState) (c : Nat)
    (n : String) (gc : Bool) (hf : 1 ≤ fuel) (hok : connOkB net c = true) :
    ((setupWSConnection fuel net s c n gc).1.docs = s.docs ∧
      lookupL s.docs n = some (setupWSConnection fuel net s c n gc).2.1) ∨
    ((setupWSConnection fuel net s c n gc).1.docs =
        s.docs ++ [(n, (setupWSConnection fuel net s c n gc).2.1)] ∧
      lookupL s.docs n = none) := by
  have hsend : ∀ (r : Room) (m : SFrameOut), sendF fuel net r c m = (r, [SOut.sendTo c m]) :=
    fun r m => sendF_ok fuel net r c m hok hf
  simp only [setupWSConnection, getYDoc]
  cases hlook : lookupL s.docs n with
  | some rid =>
    left
    cases hroom : lookupL s.rooms rid with
    | none => simp [hroom, hlook]
    | some room =>
      simp only [hroom, hsend]
      split_ifs with h1 <;>
        (refine ⟨?_, by simp⟩
         rw [applyRegistryOuts_docs]
         all_goals first
           | rfl
           | (intro nm; simp))
  | none =>
    right
    cases hroom : lookupL (s.rooms ++ [(s.nextRoomId, newRoom n gc)]) s.nextRoomId with
    | none =>
      simp only [hroom, hlook]
      simp
    | some room =>
      simp only [hroom, hlook, hsend]
      split_ifs with h1 h2 <;>
        (refine ⟨?_, by simp⟩
         rw [applyRegistryOuts_docs]
         all_goals first
           | rfl
           | (intro nm; simp))

/-- Along any request sequence over healthy connections, existing registry
bindings survive untouched and every processed request ends up bound to
the room identity the final registry records for its name. -/
theorem runSetups_sound (fuel : Nat) (net : Net) (hf : 1 ≤ fuel) :
    ∀ (reqs : List (Nat × String)) (s : ServerState),
      (∀ e ∈ reqs, connOkB net e.1 = true) →
      (∀ name rid, lookupL s.docs name = some rid →
        lookupL (runSetups fuel net s reqs).1.docs name = some rid) ∧
      (∀ e ∈ (runSetups fuel net s reqs).2,
        lookupL (runSetups fuel net s reqs).1.docs e.2.1 = some e.2.2) := by
  intro reqs
  induction reqs with
  | nil =>
    intro s hok
    constructor
    · intro name rid hl
      exact hl
    · intro e he
      simp [runSetups] at he
  | cons req rest ih =>
    obtain ⟨c, n⟩ := req
    intro s hok
    have hcok : connOkB net c = true := hok (c, n) (List.mem_cons_self _ _)
    have hdocs := setupWSConnection_docs fuel net s c n true hf hcok
    have hstab : ∀ name rid, lookupL s.docs name = some rid →
        lookupL (setupWSConnection fuel net s c n true).1.docs name = some rid := by
      intro name rid hl
      rcases hdocs with ⟨hd, _⟩ | ⟨hd, _⟩
      · rw [hd]; exact hl
      · rw [hd]; exact lookupL_append_some _ hl
    have hassigned : lookupL (setupWSConnection fuel net s c n true).1.docs n =
        some (setupWSConnection fuel net s c n true).2.1 := by
      rcases hdocs with ⟨hd, hl⟩ | ⟨hd, hl⟩
      · rw [hd]; exact hl
      · rw [hd]; exact lookupL_append_fresh _ hl
    obtain ⟨ihstab, ihmem⟩ := ih (setupWSConnection fuel net s c n true).1
      (fun e he => hok e (List.mem_cons_of_mem _ he))
    constructor
    · intro name rid hl
      exact ihstab name rid (hstab name rid hl)
    · intro e he
      simp only [runSetups] at he ⊢
      rcases List.mem_cons.mp he with he1 | he2
      · subst he1
        exact ihstab n _ hassigned
      · exact ihmem e he2

/-- C2: over any sequence of connection setups on healthy sockets, any two
requests for the same room name are bound to the same room object
identity, lookup-or-create never replaces an existing binding, and each
request ends bound to the identity the registry records for its name. -/
theorem C2_room_singleton (fuel : Nat) (net : Net) (s : ServerState)
    (reqs : List (Nat × String)) (e1 e2 : Nat × String × Nat) (name : String) (rid : Nat)
    (hf : 1 ≤ fuel)
    (hok : ∀ e ∈ reqs, connOkB net e.1 = true)
    (he1 : e1 ∈ (runSetups fuel net s reqs).2)
    (he2 : e2 ∈ (runSetups fuel net s reqs).2)
    (hsame : e1.2.1 = e2.2.1)
    (hold : lookupL s.docs name = some rid) :
    e1.2.2 = e2.2.2 ∧
    lookupL (runSetups fuel net s reqs).1.docs name = some rid ∧
    lookupL (runSetups fuel net s reqs).1.docs e1.2.1 = some e1.2.2 := by
  obtain ⟨hstab, hmem⟩ := runSetups_sound fuel net hf reqs s hok
  refine ⟨?_, hstab name rid hold, hmem e1 he1⟩
  have h1 := hmem e1 he1
  have h2 := hmem e2 he2
  rw [hsame] at h1
  rw [h1] at h2
  exact Option.some.inj h2

/-- Example server registry with one pre-existing binding. -/
def exServer : ServerState := { docs := [("old", 7)], nextRoomId := 8, rooms := [] }

/-- Witness for C2: two simultaneous first connections for the unseen room
name d are bound to one and the same fresh room identity, and the old
binding survives. -/
theorem C2_room_singleton_witness :
    ((0 : Nat), "d", (8 : Nat)).2.2 = ((1 : Nat), "d", (8 : Nat)).2.2 ∧
    lookupL (runSetups 5 exNet exServer [(0, "d"), (1, "d")]).1.docs "old" = some 7 ∧
    lookupL (runSetups 5 exNet exServer [(0, "d"), (1, "d")]).1.docs
      ((0 : Nat), "d", (8 : Nat)).2.1 = some ((0 : Nat), "d", (8 : Nat)).2.2 :=
  C2_room_singleton 5 exNet exServer [(0, "d"), (1, "d")] (0, "d", 8) (1, "d", 8) "old" 7
    (by omega) (by decide) (by decide) (by decide) (by rfl) (by rfl)

end YW
